/-
Verification of the yt8m modeling fragment
(`official/projects/yt8m/modeling/nn_layers.py` and
`official/projects/yt8m/modeling/yt8m_model.py`).

Two complementary shallow embeddings are used.

1. A numeric embedding of the prediction computations of
   `LogisticModel.create_model` and `MoeModel.create_model`.  Tensors are
   total functions `Fin batch → Fin width → ℚ`; the framework's
   exponential is an explicit parameter `rexp : ℚ → ℚ` (softmax and
   sigmoid are defined from it exactly as `tf.nn.softmax` / `tf.nn.sigmoid`
   are defined from `exp`), so every definition is computable and the
   algebraic structure of the computation is preserved.  `tf.reshape` is
   modelled by its row-major semantics on flat indices.

2. A construction-trace embedding of `DbofModel`: building the model is
   a pure function from the configuration record to the list of
   layer-construction calls performed, in source order, or to a build
   error.  The local Python variable `activation` of `get_dbof` — which
   initially holds the *string* activation name and only becomes a tensor
   once the cluster `Dense` layer is applied — is tracked as an explicit
   `ActVal` value, so misuse of the string as a tensor surfaces as an
   error exactly where the framework would raise.
-/
import Mathlib

namespace Yt8m

/-! ## Numeric primitives (framework ops used by nn_layers.py) -/

/-- A dense (affine) layer `x ↦ W x + b`, the computation performed by
`tf.keras.layers.Dense` with `units = o` on a feature vector of width `i`. -/
def dense {o i : ℕ} (W : Fin o → Fin i → ℚ) (b : Fin o → ℚ)
    (x : Fin i → ℚ) : Fin o → ℚ :=
  fun k => (∑ j, W k j * x j) + b k

/-- `tf.nn.softmax` along a length-`n` axis, with the framework's
exponential abstracted as `rexp`. -/
def softmax {n : ℕ} (rexp : ℚ → ℚ) (x : Fin n → ℚ) (i : Fin n) : ℚ :=
  rexp (x i) / ∑ j, rexp (x j)

/-- `tf.nn.sigmoid`, with the framework's exponential abstracted as `rexp`. -/
def sigmoid (rexp : ℚ → ℚ) (x : ℚ) : ℚ :=
  1 / (1 + rexp (-x))

/-- The flat (row-major) index of entry `(a, b)` of an `m × n` tensor,
as an element of `Fin (m * n)`. -/
def finPair {m n : ℕ} (a : Fin m) (b : Fin n) : Fin (m * n) :=
  ⟨a.val * n + b.val, by
    calc a.val * n + b.val < a.val * n + n := by omega
    _ = (a.val + 1) * n := by ring
    _ ≤ m * n := Nat.mul_le_mul_right n a.isLt⟩

/-- Row-major `tf.reshape t [-1, m]` of a `B × (n*m)` tensor into a
`(B*n) × m` tensor: entry `(r, c)` is the flat element `r*m + c`. -/
def reshapeMerge (B n m : ℕ) (t : Fin B → Fin (n * m) → ℚ) :
    Fin (B * n) → Fin m → ℚ :=
  fun r c =>
    have hBn : 0 < B * n := r.pos
    have hn : 0 < n := Nat.pos_of_ne_zero (fun h => by simp [h] at hBn)
    have hm : 0 < n * m := Nat.mul_pos hn c.pos
    have hflat : r.val * m + c.val < n * m * B := by
      calc r.val * m + c.val < r.val * m + m := by omega
      _ = (r.val + 1) * m := by ring
      _ ≤ (B * n) * m := Nat.mul_le_mul_right m r.isLt
      _ = n * m * B := by ring
    t ⟨(r.val * m + c.val) / (n * m), Nat.div_lt_of_lt_mul hflat⟩
      ⟨(r.val * m + c.val) % (n * m), Nat.mod_lt _ hm⟩

/-- Row-major `tf.reshape t [-1, n, m]` of a `B × (n*m)` tensor into a
`B × n × m` tensor. -/
def reshapeSplit (B n m : ℕ) (t : Fin B → Fin (n * m) → ℚ) :
    Fin B → Fin n → Fin m → ℚ :=
  fun b j v => t b (finPair j v)

/-- Row-major `tf.reshape t [-1, m]` of a flat `(B*m)`-vector into a
`B × m` tensor. -/
def reshapeRows (B m : ℕ) (t : Fin (B * m) → ℚ) : Fin B → Fin m → ℚ :=
  fun b v => t (finPair b v)

/-! ## nn_layers.LogisticModel -/

/-- Output record of `LogisticModel.create_model`: the `"predictions"`
entry of the returned dictionary, together with the L2 weight passed to
the `Dense` layer's `kernel_regularizer`. -/
structure LogisticOutput (B V : ℕ) where
  predictions : Fin B → Fin V → ℚ
  kernel_regularizer_l2 : ℚ

namespace LogisticModel

/-- `LogisticModel.create_model`: one `Dense(vocab_size)` layer with
sigmoid activation and `l2(l2_penalty)` kernel regularization applied to
the `B × nf` input. -/
def create_model (rexp : ℚ → ℚ) (B nf V : ℕ)
    (W : Fin V → Fin nf → ℚ) (bias : Fin V → ℚ)
    (l2_penalty : ℚ)
    (model_input : Fin B → Fin nf → ℚ) : LogisticOutput B V :=
  { predictions := fun b v => sigmoid rexp (dense W bias (model_input b) v)
    kernel_regularizer_l2 := l2_penalty }

end LogisticModel

/-! ## nn_layers.MoeModel -/

/-- Output record of `MoeModel.create_model`: the `"predictions"` entry of
the returned dictionary, and the L2 weights passed to the gate and expert
`Dense` layers' `kernel_regularizer`. -/
structure MoeOutput (B V : ℕ) where
  predictions : Fin B → Fin V → ℚ
  gate_kernel_regularizer_l2 : ℚ
  expert_kernel_regularizer_l2 : ℚ

namespace MoeModel

/-- `MoeModel.create_model`.  `gateW`/`gateB` are the parameters of the
`Dense(vocab_size * (num_mixtures + 1))` gate layer, `expertW`/`expertB`
those of the `Dense(vocab_size * num_mixtures)` expert layer.  The
context-gate transformations (`utils.context_gate`, defined outside this
fragment) are abstract function parameters, applied only when the
corresponding flag is set.  The two `vocab_as_last_dim` branches follow
the source's `tf.reshape` calls with row-major semantics, softmax over
axis 1, the `[:, :num_mixtures]` slice, and `reduce_sum` over axis 1. -/
def create_model (rexp : ℚ → ℚ) (B nf V M : ℕ)
    (gateW : Fin (V * (M + 1)) → Fin nf → ℚ) (gateB : Fin (V * (M + 1)) → ℚ)
    (expertW : Fin (V * M) → Fin nf → ℚ) (expertB : Fin (V * M) → ℚ)
    (use_input_context_gate : Bool) (use_output_context_gate : Bool)
    (input_context_gate : (Fin B → Fin nf → ℚ) → Fin B → Fin nf → ℚ)
    (output_context_gate : (Fin B → Fin V → ℚ) → Fin B → Fin V → ℚ)
    (vocab_as_last_dim : Bool) (l2_penalty : ℚ)
    (model_input : Fin B → Fin nf → ℚ) : MoeOutput B V :=
  let inp : Fin B → Fin nf → ℚ :=
    if use_input_context_gate then input_context_gate model_input else model_input
  let gate_activations : Fin B → Fin (V * (M + 1)) → ℚ :=
    fun b => dense gateW gateB (inp b)
  let expert_activations : Fin B → Fin (V * M) → ℚ :=
    fun b => dense expertW expertB (inp b)
  let final_probabilities : Fin B → Fin V → ℚ :=
    if vocab_as_last_dim then
      let g3 : Fin B → Fin (M + 1) → Fin V → ℚ :=
        reshapeSplit B (M + 1) V
          (fun b k => gate_activations b (Fin.cast (Nat.mul_comm (M + 1) V) k))
      let e3 : Fin B → Fin M → Fin V → ℚ :=
        reshapeSplit B M V
          (fun b k => expert_activations b (Fin.cast (Nat.mul_comm M V) k))
      fun b v => ∑ j : Fin M,
        softmax rexp (fun j' => g3 b j' v) (Fin.castSucc j) * sigmoid rexp (e3 b j v)
    else
      let g2 : Fin (B * V) → Fin (M + 1) → ℚ := reshapeMerge B V (M + 1) gate_activations
      let e2 : Fin (B * V) → Fin M → ℚ := reshapeMerge B V M expert_activations
      reshapeRows B V (fun r => ∑ j : Fin M,
        softmax rexp (g2 r) (Fin.castSucc j) * sigmoid rexp (e2 r j))
  let out : Fin B → Fin V → ℚ :=
    if use_output_context_gate then output_context_gate final_probabilities
    else final_probabilities
  { predictions := out
    gate_kernel_regularizer_l2 := l2_penalty
    expert_kernel_regularizer_l2 := l2_penalty }

end MoeModel

/-- Flat position of the gate slot for class `v`, mixture `j` under the
`vocab_as_last_dim = False` layout (`tf.reshape [_, num_mixtures + 1]`). -/
def gateIdxF {V M : ℕ} (v : Fin V) (j : Fin (M + 1)) : Fin (V * (M + 1)) :=
  finPair v j

/-- Flat position of the expert slot for class `v`, mixture `j` under the
`vocab_as_last_dim = False` layout. -/
def expertIdxF {V M : ℕ} (v : Fin V) (j : Fin M) : Fin (V * M) :=
  finPair v j

/-- Flat position of the gate slot for class `v`, mixture `j` under the
`vocab_as_last_dim = True` layout (`tf.reshape [_, num_mixtures + 1, vocab]`). -/
def gateIdxT {V M : ℕ} (v : Fin V) (j : Fin (M + 1)) : Fin (V * (M + 1)) :=
  Fin.cast (Nat.mul_comm (M + 1) V) (finPair j v)

/-- Flat position of the expert slot for class `v`, mixture `j` under the
`vocab_as_last_dim = True` layout. -/
def expertIdxT {V M : ℕ} (v : Fin V) (j : Fin M) : Fin (V * M) :=
  Fin.cast (Nat.mul_comm M V) (finPair j v)

/-- Spec-side mixture-of-experts formula: per class `v`, the sum over the
`M` experts of the softmax-normalized gate weight (softmax over the `M + 1`
gate slots) multiplied by the sigmoid of the corresponding expert
activation, where gate and expert activations are dense maps of the input;
`gidx`/`eidx` give the flat position of each (class, mixture) slot. -/
def mixtureOfExpertsSpec (rexp : ℚ → ℚ) (B nf V M : ℕ)
    (gateW : Fin (V * (M + 1)) → Fin nf → ℚ) (gateB : Fin (V * (M + 1)) → ℚ)
    (expertW : Fin (V * M) → Fin nf → ℚ) (expertB : Fin (V * M) → ℚ)
    (gidx : Fin V → Fin (M + 1) → Fin (V * (M + 1)))
    (eidx : Fin V → Fin M → Fin (V * M))
    (model_input : Fin B → Fin nf → ℚ) : Fin B → Fin V → ℚ :=
  fun b v => ∑ j : Fin M,
    softmax rexp (fun j' => dense gateW gateB (model_input b) (gidx v j'))
        (Fin.castSucc j)
      * sigmoid rexp (dense expertW expertB (model_input b) (eidx v j))

/-! ## yt8m_model.DbofModel: configuration records

The configuration dataclass `yt8m_cfg.DbofModel` lives outside this
fragment; its fields are modelled from the attribute accesses the fragment
performs on it. -/

/-- The `agg_model` sub-configuration (fields read by `get_aggregation`). -/
structure MoeAggParams where
  num_mixtures : ℤ
  vocab_as_last_dim : Bool
  l2_penalty : ℚ
deriving DecidableEq

/-- The `params` configuration object (fields read by `get_dbof` and
`get_aggregation`). -/
structure DbofParams where
  cluster_size : ℤ
  hidden_size : ℤ
  add_batch_norm : Bool
  pooling_method : String
  use_context_gate_cluster_layer : Bool
  context_gate_cluster_bottleneck_size : ℤ
  yt8m_agg_classifier_model : String
  agg_model : MoeAggParams
deriving DecidableEq

/-- `tf.keras.layers.InputSpec`: only its `shape` is read (`None` entries
are unknown dimensions). -/
structure InputSpec where
  shape : List (Option ℤ)
deriving DecidableEq

/-- The full set of `DbofModel.__init__` arguments; also the contents of
`self._config_dict` (same keys, bound verbatim). -/
structure DbofConfig where
  input_specs : InputSpec
  num_classes : ℤ
  params : DbofParams
  use_sync_bn : Bool
  activation : String
  l2_weight_decay : Option ℚ
  norm_momentum : ℚ
  norm_epsilon : ℚ
deriving DecidableEq

/-! ## yt8m_model.DbofModel: construction-trace semantics -/

/-- The value held by the local Python variable `activation` in
`get_dbof`: initially the string-valued activation parameter, a tensor
once a layer has been applied to produce it. -/
inductive ActVal where
  | str (s : String)
  | tensor
deriving DecidableEq

/-- One layer-construction call performed while building the model, with
the configuration arguments passed to it. -/
inductive LayerCall where
  | inputLayer (shape : List (Option ℤ))
  | l2Normalize
  | batchNorm (name : String) (synchronized : Bool) (momentum epsilon : ℚ)
  | denseLayer (units : ℤ) (kernel_regularizer : Option ℚ)
  | biasVar (name : String) (size : ℤ)
  | actFn (name : String)
  | contextGateCall (hidden_layer_size : ℤ) (normalizer_sync : Bool)
      (kernel_regularizer : Option ℚ)
  | framePool (method : String)
  | aggClassifier (model : String) (vocab_size num_mixtures : ℤ)
      (vocab_as_last_dim : Bool) (l2_penalty : ℚ) (normalizer_sync : Bool)
      (normalizer_momentum normalizer_epsilon : ℚ)
deriving DecidableEq

/-- An error during model construction.  `framework` errors are raised by
the external framework (or the Python runtime) inside a call the fragment
makes, and carry the offending operand when the error is a type misuse;
`fragmentRaise` would be an error raised by the fragment's own code — the
fragment contains no raise statement, and the constructor exists so that
this is a provable property rather than one true by the shape of the type. -/
inductive BuildError where
  | framework (site : String) (operand : Option ActVal)
  | fragmentRaise (site : String)
deriving DecidableEq

/-- `True` exactly for errors originating in the external framework. -/
def BuildError.isFramework : BuildError → Bool
  | .framework _ _ => true
  | .fragmentRaise _ => false

/-- The kernel regularizer built at the top of `get_dbof`:
`tf.keras.regularizers.l2(l2_weight_decay / 2.0) if l2_weight_decay else
None` — Python truthiness makes both `None` and `0.0` produce `None`. -/
def l2Reg (l2_weight_decay : Option ℚ) : Option ℚ :=
  match l2_weight_decay with
  | none => none
  | some w => if w = 0 then none else some (w / 2)

namespace DbofModel

/-- `DbofModel.get_dbof`, as the sequence of layer-construction calls it
performs (in source order), or the first framework error.  The local
variable `activation` is tracked as an `ActVal`: it is the string-valued
activation parameter until the cluster `Dense` layer (guarded by
`cluster_size > 0`) replaces it with a tensor, so when `cluster_size ≤ 0`
its next use as a tensor — batch normalization, or the `+=` with
`cluster_biases` — fails in the framework. -/
def get_dbof (params : DbofParams) (input_specs : InputSpec)
    (activation : String) (use_sync_bn : Bool)
    (norm_momentum norm_epsilon : ℚ) (l2_weight_decay : Option ℚ) :
    Except BuildError (List LayerCall) :=
  let l2_regularizer := l2Reg l2_weight_decay
  let t1 : List LayerCall :=
    [.inputLayer input_specs.shape, .l2Normalize]
      ++ (if params.add_batch_norm then
            [.batchNorm "input_bn" use_sync_bn norm_momentum norm_epsilon]
          else [])
  let step2 : List LayerCall × ActVal :=
    if 0 < params.cluster_size then
      (t1 ++ [.denseLayer params.cluster_size l2_regularizer], .tensor)
    else (t1, .str activation)
  let clusterNorm : Except BuildError (List LayerCall) :=
    if params.add_batch_norm then
      match step2.2 with
      | .tensor => .ok (step2.1
          ++ [.batchNorm "cluster_bn" use_sync_bn norm_momentum norm_epsilon])
      | .str s => .error (.framework "cluster_bn" (some (.str s)))
    else
      match step2.2 with
      | .tensor => .ok (step2.1 ++ [.biasVar "cluster_biases" params.cluster_size])
      | .str s => .error (.framework "cluster_biases_add" (some (.str s)))
  match clusterNorm with
  | .error e => .error e
  | .ok t3 =>
    let t5 := t3 ++ [.actFn activation]
      ++ (if params.use_context_gate_cluster_layer then
            [.contextGateCall params.context_gate_cluster_bottleneck_size
              use_sync_bn l2_regularizer]
          else [])
      ++ [.framePool params.pooling_method]
      ++ [.denseLayer params.hidden_size l2_regularizer]
      ++ (if params.add_batch_norm then
            [.batchNorm "hidden1_bn" use_sync_bn norm_momentum norm_epsilon]
          else [.biasVar "hidden1_biases" params.hidden_size])
      ++ [.actFn activation]
    .ok t5

/-- `DbofModel.get_aggregation`: resolves
`getattr(nn_layers, params.yt8m_agg_classifier_model)` — an attribute
error from the runtime unless the name is one of the classes defined in
`nn_layers` — and calls its `create_model` with the configured arguments,
passing a batch-norm constructor with `synchronized = use_sync_bn`. -/
def get_aggregation (params : DbofParams) (num_classes : ℤ) (use_sync_bn : Bool)
    (norm_momentum norm_epsilon : ℚ) : Except BuildError (List LayerCall) :=
  if params.yt8m_agg_classifier_model = "LogisticModel"
      ∨ params.yt8m_agg_classifier_model = "MoeModel" then
    .ok [.aggClassifier params.yt8m_agg_classifier_model num_classes
          params.agg_model.num_mixtures params.agg_model.vocab_as_last_dim
          params.agg_model.l2_penalty use_sync_bn norm_momentum norm_epsilon]
  else .error (.framework "getattr_nn_layers" none)

end DbofModel

/-- A constructed `DbofModel`: its `_config_dict` (stored verbatim from
the constructor arguments at the top of `get_dbof`) and the layer calls
made while building it. -/
structure DbofModel where
  config_dict : DbofConfig
  layers_built : List LayerCall
deriving DecidableEq

namespace DbofModel

/-- `DbofModel.__init__`: runs `get_dbof`, then `get_aggregation`, with
the trace of construction calls as the observable result. -/
def construct (c : DbofConfig) : Except BuildError DbofModel :=
  match get_dbof c.params c.input_specs c.activation c.use_sync_bn
      c.norm_momentum c.norm_epsilon c.l2_weight_decay with
  | .error e => .error e
  | .ok t1 =>
    match get_aggregation c.params c.num_classes c.use_sync_bn
        c.norm_momentum c.norm_epsilon with
    | .error e => .error e
    | .ok t2 => .ok ⟨c, t1 ++ t2⟩

/-- `DbofModel.get_config`: returns `self._config_dict`. -/
def get_config (m : DbofModel) : DbofConfig := m.config_dict

/-- `DbofModel.from_config`: `cls(**config)`. -/
def from_config (c : DbofConfig) : Except BuildError DbofModel := construct c

end DbofModel

/-! ## Observations on construction results -/

/-- The constructor tag of a layer call, forgetting its arguments: the
"branch shape" of a trace is the list of tags. -/
inductive LayerTag where
  | inputLayer | l2Normalize | batchNorm | denseLayer | biasVar | actFn
  | contextGateCall | framePool | aggClassifier
deriving DecidableEq

/-- Tag of a layer call. -/
def LayerCall.tag : LayerCall → LayerTag
  | .inputLayer _ => .inputLayer
  | .l2Normalize => .l2Normalize
  | .batchNorm _ _ _ _ => .batchNorm
  | .denseLayer _ _ => .denseLayer
  | .biasVar _ _ => .biasVar
  | .actFn _ => .actFn
  | .contextGateCall _ _ _ => .contextGateCall
  | .framePool _ => .framePool
  | .aggClassifier _ _ _ _ _ _ _ _ => .aggClassifier

/-- The branch shape of a construction result: the list of layer tags on
success, `none` on a construction error. -/
def traceShape (r : Except BuildError DbofModel) : Option (List LayerTag) :=
  match r with
  | .ok m => some (m.layers_built.map LayerCall.tag)
  | .error _ => none

/-- The layer calls of a successful construction (empty on error). -/
def traceList (r : Except BuildError DbofModel) : List LayerCall :=
  match r with
  | .ok m => m.layers_built
  | .error _ => []

/-- Batch-normalization layers of a trace, as (name, synchronized) pairs
in construction order. -/
def bnLayers (t : List LayerCall) : List (String × Bool) :=
  t.filterMap fun e => match e with
    | .batchNorm n s _ _ => some (n, s)
    | _ => none

/-- Learned bias variables of a trace, as (name, size) pairs in
construction order. -/
def biasVars (t : List LayerCall) : List (String × ℤ) :=
  t.filterMap fun e => match e with
    | .biasVar n z => some (n, z)
    | _ => none

/-- Units of the dense layers of a trace, in construction order. -/
def denseUnits (t : List LayerCall) : List ℤ :=
  t.filterMap fun e => match e with
    | .denseLayer u _ => some u
    | _ => none

/-- Aggregation-classifier invocations of a trace, as
(model, vocab_size, num_mixtures) triples. -/
def aggCalls (t : List LayerCall) : List (String × ℤ × ℤ) :=
  t.filterMap fun e => match e with
    | .aggClassifier n v m _ _ _ _ _ => some (n, v, m)
    | _ => none

/-- The `synchronized` argument a layer call passes to (or forwards into)
batch normalization, if any: `batchNorm` layers themselves, and the
batch-norm constructors handed to `utils.context_gate` and to the
aggregation classifier. -/
def LayerCall.syncFlag : LayerCall → Option Bool
  | .batchNorm _ s _ _ => some s
  | .contextGateCall _ s _ => some s
  | .aggClassifier _ _ _ _ _ s _ _ => some s
  | _ => none

/-- `True` when a construction result is either a success or an error
originating in the external framework. -/
def errorsAreFramework (r : Except BuildError DbofModel) : Bool :=
  match r with
  | .ok _ => true
  | .error e => e.isFramework

/-- Spec-side layer sequence of `get_dbof` when the cluster projection
exists: input layer, L2 normalization, then — branching only on the
batch-norm toggle at each normalization point — `input_bn` after the
input normalization, the cluster `Dense`, `cluster_bn` (else the learned
`cluster_biases` added to the activation), the activation function, the
optional context gate, frame pooling, the hidden `Dense`, `hidden1_bn`
(else the learned `hidden1_biases`), and the activation function. -/
def dbofLayers (params : DbofParams) (shape : List (Option ℤ)) (act : String)
    (sync : Bool) (mom eps : ℚ) (reg : Option ℚ) : List LayerCall :=
  [.inputLayer shape, .l2Normalize]
  ++ (if params.add_batch_norm then [.batchNorm "input_bn" sync mom eps] else [])
  ++ [.denseLayer params.cluster_size reg]
  ++ (if params.add_batch_norm then [.batchNorm "cluster_bn" sync mom eps]
      else [.biasVar "cluster_biases" params.cluster_size])
  ++ [.actFn act]
  ++ (if params.use_context_gate_cluster_layer then
        [.contextGateCall params.context_gate_cluster_bottleneck_size sync reg]
      else [])
  ++ [.framePool params.pooling_method]
  ++ [.denseLayer params.hidden_size reg]
  ++ (if params.add_batch_norm then [.batchNorm "hidden1_bn" sync mom eps]
      else [.biasVar "hidden1_biases" params.hidden_size])
  ++ [.actFn act]

/-- The branch shape a construction is expected to have, as a function of
the branch-determining configuration values only. -/
def dbofShape (add_bn cluster_pos use_cg : Bool) (agg_name : String) :
    Option (List LayerTag) :=
  if cluster_pos then
    if agg_name = "LogisticModel" ∨ agg_name = "MoeModel" then
      some ([.inputLayer, .l2Normalize]
        ++ (if add_bn then [.batchNorm] else [])
        ++ [.denseLayer]
        ++ [if add_bn then .batchNorm else .biasVar]
        ++ [.actFn]
        ++ (if use_cg then [.contextGateCall] else [])
        ++ [.framePool, .denseLayer]
        ++ [if add_bn then .batchNorm else .biasVar]
        ++ [.actFn, .aggClassifier])
    else none
  else none

/-- Bool-valued check that a layer call's synchronization argument (if it
passes one) equals `sync`. -/
def syncOk (sync : Bool) (e : LayerCall) : Bool :=
  match e.syncFlag with
  | none => true
  | some s => s == sync

/-- Small concrete `agg_model` configuration for witnesses. -/
def exampleAgg : MoeAggParams :=
  { num_mixtures := 2, vocab_as_last_dim := false, l2_penalty := 0 }

/-- Concrete `params` with batch norm enabled and a positive cluster size. -/
def exampleParamsBn : DbofParams :=
  { cluster_size := 1, hidden_size := 3, add_batch_norm := true
    pooling_method := "average", use_context_gate_cluster_layer := false
    context_gate_cluster_bottleneck_size := 0
    yt8m_agg_classifier_model := "MoeModel", agg_model := exampleAgg }

/-- Concrete `params` identical to `exampleParamsBn` except that the
context-gate cluster layer is enabled. -/
def exampleParamsCg : DbofParams :=
  { exampleParamsBn with use_context_gate_cluster_layer := true }

/-- Concrete `params` with `cluster_size = 0` (no cluster projection). -/
def exampleParamsBad : DbofParams :=
  { exampleParamsBn with cluster_size := 0 }

/-- Concrete input specs `[None, None, 1152]`. -/
def exampleSpec : InputSpec := ⟨[none, none, some 1152]⟩

/-- Concrete full constructor configuration. -/
def exampleConfig : DbofConfig :=
  { input_specs := exampleSpec, num_classes := 10, params := exampleParamsBn
    use_sync_bn := false, activation := "relu", l2_weight_decay := none
    norm_momentum := 0, norm_epsilon := 0 }

/-- `exampleConfig` with the context-gate cluster layer enabled. -/
def exampleConfigCg : DbofConfig :=
  { exampleConfig with params := exampleParamsCg }

/-- The model `DbofModel.construct exampleConfig` builds. -/
def exampleModel : DbofModel :=
  { config_dict := exampleConfig
    layers_built :=
      dbofLayers exampleParamsBn exampleSpec.shape "relu" false 0 0 none
        ++ [.aggClassifier "MoeModel" 10 2 false 0 false 0 0] }

/-! # Theorems -/

/-- Row-major merge reshape, read back at a pair index. -/
theorem reshapeMerge_finPair (B n m : ℕ) (t : Fin B → Fin (n * m) → ℚ)
    (b : Fin B) (q : Fin n) (c : Fin m) :
    reshapeMerge B n m t (finPair b q) c = t b (finPair q c) := by
  have hm : 0 < n * m := Nat.mul_pos q.pos c.pos
  have hr : q.val * m + c.val < n * m := (finPair q c).isLt
  have hflat : (b.val * n + q.val) * m + c.val
      = (q.val * m + c.val) + (n * m) * b.val := by ring
  simp only [reshapeMerge]
  congr 1
  · apply Fin.ext
    simp only [finPair, hflat]
    rw [Nat.add_mul_div_left _ _ hm, Nat.div_eq_of_lt hr, Nat.zero_add]
  · apply Fin.ext
    simp only [finPair, hflat, Nat.add_mul_mod_self_left, Nat.mod_eq_of_lt hr]

/-- The `vocab_as_last_dim = False` branch of `MoeModel.create_model`
computes the mixture-of-experts formula with the `(class, mixture)` slot
layout of `tf.reshape [_, num_mixtures + 1]`. -/
theorem moe_false_characterization (rexp : ℚ → ℚ) (B nf V M : ℕ)
    (gateW : Fin (V * (M + 1)) → Fin nf → ℚ) (gateB : Fin (V * (M + 1)) → ℚ)
    (expertW : Fin (V * M) → Fin nf → ℚ) (expertB : Fin (V * M) → ℚ)
    (icg : (Fin B → Fin nf → ℚ) → Fin B → Fin nf → ℚ)
    (ocg : (Fin B → Fin V → ℚ) → Fin B → Fin V → ℚ)
    (l2_penalty : ℚ) (x : Fin B → Fin nf → ℚ) :
    (MoeModel.create_model rexp B nf V M gateW gateB expertW expertB
        false false icg ocg false l2_penalty x).predictions
      = mixtureOfExpertsSpec rexp B nf V M gateW gateB expertW expertB
          gateIdxF expertIdxF x := by
  funext b v
  simp only [MoeModel.create_model, mixtureOfExpertsSpec, Bool.false_eq_true,
    if_false, reshapeRows]
  refine Finset.sum_congr rfl fun j _ => ?_
  have hg : (fun j' : Fin (M + 1) =>
      reshapeMerge B V (M + 1) (fun b' => dense gateW gateB (x b')) (finPair b v) j')
        = fun j' => dense gateW gateB (x b) (gateIdxF v j') :=
    funext fun j' => reshapeMerge_finPair B V (M + 1) _ b v j'
  have he : reshapeMerge B V M (fun b' => dense expertW expertB (x b')) (finPair b v) j
      = dense expertW expertB (x b) (expertIdxF v j) :=
    reshapeMerge_finPair B V M _ b v j
  rw [softmax, softmax]
  rw [show reshapeMerge B V (M + 1) (fun b' => dense gateW gateB (x b'))
      (finPair b v) = fun j' => dense gateW gateB (x b) (gateIdxF v j') from hg]
  rw [he]

/-- The `vocab_as_last_dim = True` branch of `MoeModel.create_model`
computes the mixture-of-experts formula with the `(mixture, class)` slot
layout of `tf.reshape [_, num_mixtures + 1, vocab]`. -/
theorem moe_true_characterization (rexp : ℚ → ℚ) (B nf V M : ℕ)
    (gateW : Fin (V * (M + 1)) → Fin nf → ℚ) (gateB : Fin (V * (M + 1)) → ℚ)
    (expertW : Fin (V * M) → Fin nf → ℚ) (expertB : Fin (V * M) → ℚ)
    (icg : (Fin B → Fin nf → ℚ) → Fin B → Fin nf → ℚ)
    (ocg : (Fin B → Fin V → ℚ) → Fin B → Fin V → ℚ)
    (l2_penalty : ℚ) (x : Fin B → Fin nf → ℚ) :
    (MoeModel.create_model rexp B nf V M gateW gateB expertW expertB
        false false icg ocg true l2_penalty x).predictions
      = mixtureOfExpertsSpec rexp B nf V M gateW gateB expertW expertB
          gateIdxT expertIdxT x := by
  funext b v
  simp only [MoeModel.create_model, mixtureOfExpertsSpec, Bool.false_eq_true,
    if_false, if_true, reshapeSplit, gateIdxT, expertIdxT]

/-- C1: for every input matrix, vocabulary size `V` and mixture count `M`
(and either reshape layout), `MoeModel.create_model`'s `"predictions"`
entry is the `batch × V` tensor that, per class, sums over the `M` experts
the softmax-normalized gate weight (softmax over the `M + 1` gate slots
along axis 1) times the sigmoid of the corresponding expert activation,
the gate and expert activations being dense (affine) maps of the input;
both dense layers carry L2 kernel regularization of weight `l2_penalty`. -/
theorem claim1_moe_create_model (rexp : ℚ → ℚ) (B nf V M : ℕ)
    (gateW : Fin (V * (M + 1)) → Fin nf → ℚ) (gateB : Fin (V * (M + 1)) → ℚ)
    (expertW : Fin (V * M) → Fin nf → ℚ) (expertB : Fin (V * M) → ℚ)
    (icg : (Fin B → Fin nf → ℚ) → Fin B → Fin nf → ℚ)
    (ocg : (Fin B → Fin V → ℚ) → Fin B → Fin V → ℚ)
    (l2_penalty : ℚ) (x : Fin B → Fin nf → ℚ) :
    ((MoeModel.create_model rexp B nf V M gateW gateB expertW expertB
        false false icg ocg false l2_penalty x).predictions
      = mixtureOfExpertsSpec rexp B nf V M gateW gateB expertW expertB
          gateIdxF expertIdxF x)
    ∧ ((MoeModel.create_model rexp B nf V M gateW gateB expertW expertB
        false false icg ocg true l2_penalty x).predictions
      = mixtureOfExpertsSpec rexp B nf V M gateW gateB expertW expertB
          gateIdxT expertIdxT x)
    ∧ (MoeModel.create_model rexp B nf V M gateW gateB expertW expertB
        false false icg ocg false l2_penalty x).gate_kernel_regularizer_l2
        = l2_penalty
    ∧ (MoeModel.create_model rexp B nf V M gateW gateB expertW expertB
        false false icg ocg false l2_penalty x).expert_kernel_regularizer_l2
        = l2_penalty :=
  ⟨moe_false_characterization rexp B nf V M gateW gateB expertW expertB
      icg ocg l2_penalty x,
    moe_true_characterization rexp B nf V M gateW gateB expertW expertB
      icg ocg l2_penalty x,
    rfl, rfl⟩

/-- C3: `LogisticModel.create_model`'s `"predictions"` entry is the
sigmoid of a single dense (affine) layer of output width `V` applied to
the input, with L2 kernel regularization of weight `l2_penalty`. -/
theorem claim3_logistic_create_model (rexp : ℚ → ℚ) (B nf V : ℕ)
    (W : Fin V → Fin nf → ℚ) (bias : Fin V → ℚ) (l2_penalty : ℚ)
    (x : Fin B → Fin nf → ℚ) :
    ((LogisticModel.create_model rexp B nf V W bias l2_penalty x).predictions
        = fun b v => sigmoid rexp ((∑ i, W v i * x b i) + bias v))
    ∧ (LogisticModel.create_model rexp B nf V W bias l2_penalty
        x).kernel_regularizer_l2 = l2_penalty :=
  ⟨rfl, rfl⟩

/-- C8 counterexample: with the same gate weights (`Dense` bias
`(1, 2, 1, 1)`, zero kernels, `V = 2`, `M = 1`), the two
`vocab_as_last_dim` layouts give different predictions for class 0: the
false layout softmaxes the pair `(1, 2)`, the true layout the pair
`(1, 1)`. -/
theorem claim8_counterexample :
    (MoeModel.create_model (fun q => q) 1 1 2 1 (fun _ _ => 0)
        (fun k => if k.val = 1 then 2 else 1)
        (fun _ _ => 0) (fun _ => 0) false false id id true 0
        (fun _ _ => 0)).predictions 0 0
      ≠ (MoeModel.create_model (fun q => q) 1 1 2 1 (fun _ _ => 0)
        (fun k => if k.val = 1 then 2 else 1)
        (fun _ _ => 0) (fun _ => 0) false false id id false 0
        (fun _ _ => 0)).predictions 0 0 := by
  rw [moe_true_characterization, moe_false_characterization]
  simp only [mixtureOfExpertsSpec, softmax, sigmoid, dense, gateIdxT, gateIdxF,
    expertIdxT, expertIdxF, finPair, Fin.sum_univ_two, Fin.sum_univ_one,
    Fin.sum_univ_succ, Fin.sum_univ_zero, Fin.cast_mk, Fin.val_zero,
    Fin.val_succ]
  norm_num

/-- C8 amended: the two layouts are equivalent up to transposing the flat
`Dense` outputs — whenever the `vocab_as_last_dim = True` parameters at
slot `(mixture j, class v)` equal the `vocab_as_last_dim = False`
parameters at slot `(class v, mixture j)`, for the gate and expert layers
alike, the two calls produce the same `"predictions"` values. -/
theorem claim8_layouts_transpose_equiv (rexp : ℚ → ℚ) (B nf V M : ℕ)
    (gateW gateW' : Fin (V * (M + 1)) → Fin nf → ℚ)
    (gateB gateB' : Fin (V * (M + 1)) → ℚ)
    (expertW expertW' : Fin (V * M) → Fin nf → ℚ)
    (expertB expertB' : Fin (V * M) → ℚ)
    (icg : (Fin B → Fin nf → ℚ) → Fin B → Fin nf → ℚ)
    (ocg : (Fin B → Fin V → ℚ) → Fin B → Fin V → ℚ)
    (l2_penalty : ℚ) (x : Fin B → Fin nf → ℚ)
    (hgW : ∀ (v : Fin V) (j : Fin (M + 1)),
      gateW' (gateIdxT v j) = gateW (gateIdxF v j))
    (hgB : ∀ (v : Fin V) (j : Fin (M + 1)),
      gateB' (gateIdxT v j) = gateB (gateIdxF v j))
    (heW : ∀ (v : Fin V) (j : Fin M),
      expertW' (expertIdxT v j) = expertW (expertIdxF v j))
    (heB : ∀ (v : Fin V) (j : Fin M),
      expertB' (expertIdxT v j) = expertB (expertIdxF v j)) :
    (MoeModel.create_model rexp B nf V M gateW' gateB' expertW' expertB'
        false false icg ocg true l2_penalty x).predictions
      = (MoeModel.create_model rexp B nf V M gateW gateB expertW expertB
        false false icg ocg false l2_penalty x).predictions := by
  rw [moe_true_characterization, moe_false_characterization]
  funext b v
  simp only [mixtureOfExpertsSpec]
  refine Finset.sum_congr rfl fun j _ => ?_
  congr 1
  · simp only [softmax]
    congr 1
    · simp only [dense, hgW, hgB]
    · refine Finset.sum_congr rfl fun j' _ => ?_
      simp only [dense, hgW, hgB]
  · simp only [dense, heW, heB]

/-- Witness for the amended C8 at `V = 2`, `M = 1`: gate biases
`(1, 3, 2, 4)` in the true layout are the transpose of `(1, 2, 3, 4)` in
the false layout, and the predictions agree. -/
theorem claim8_layouts_transpose_equiv_witness :
    (∀ (v : Fin 2) (j : Fin 2),
        (![(1 : ℚ), 3, 2, 4]) (gateIdxT v j) = (![(1 : ℚ), 2, 3, 4]) (gateIdxF v j))
    ∧ (MoeModel.create_model (fun q => q) 1 1 2 1 (fun _ _ => 0) ![1, 3, 2, 4]
        (fun _ _ => 0) (fun _ => 0) false false id id true 0
        (fun _ _ => 0)).predictions
      = (MoeModel.create_model (fun q => q) 1 1 2 1 (fun _ _ => 0) ![1, 2, 3, 4]
        (fun _ _ => 0) (fun _ => 0) false false id id false 0
        (fun _ _ => 0)).predictions :=
  ⟨by decide,
    claim8_layouts_transpose_equiv (fun q => q) 1 1 2 1
      (fun _ _ => 0) (fun _ _ => 0) ![1, 2, 3, 4] ![1, 3, 2, 4]
      (fun _ _ => 0) (fun _ _ => 0) (fun _ => 0) (fun _ => 0)
      id id 0 (fun _ _ => 0)
      (by decide) (by decide) (by decide) (by decide)⟩

/-- Symbolic evaluation of `get_dbof` on the `cluster_size > 0` path. -/
theorem get_dbof_ok (params : DbofParams) (input_specs : InputSpec)
    (activation : String) (use_sync_bn : Bool) (norm_momentum norm_epsilon : ℚ)
    (l2_weight_decay : Option ℚ) (h : 0 < params.cluster_size) :
    DbofModel.get_dbof params input_specs activation use_sync_bn norm_momentum
        norm_epsilon l2_weight_decay
      = .ok (dbofLayers params input_specs.shape activation use_sync_bn
          norm_momentum norm_epsilon (l2Reg l2_weight_decay)) := by
  unfold DbofModel.get_dbof dbofLayers
  cases hb : params.add_batch_norm <;> simp [hb, h]

/-- Symbolic evaluation of `get_dbof` on the `cluster_size ≤ 0` path: the
local `activation` still holds the string parameter at the cluster
normalization point, and construction fails there in the framework. -/
theorem get_dbof_err (params : DbofParams) (input_specs : InputSpec)
    (activation : String) (use_sync_bn : Bool) (norm_momentum norm_epsilon : ℚ)
    (l2_weight_decay : Option ℚ) (h : params.cluster_size ≤ 0) :
    DbofModel.get_dbof params input_specs activation use_sync_bn norm_momentum
        norm_epsilon l2_weight_decay
      = .error (.framework
          (if params.add_batch_norm then "cluster_bn" else "cluster_biases_add")
          (some (.str activation))) := by
  have h' : ¬ 0 < params.cluster_size := by omega
  unfold DbofModel.get_dbof
  cases hb : params.add_batch_norm <;> simp [hb, h']

/-- Symbolic evaluation of the full construction on the success path. -/
theorem construct_ok (c : DbofConfig) (h : 0 < c.params.cluster_size)
    (hn : c.params.yt8m_agg_classifier_model = "LogisticModel"
      ∨ c.params.yt8m_agg_classifier_model = "MoeModel") :
    DbofModel.construct c
      = .ok ⟨c, dbofLayers c.params c.input_specs.shape c.activation
            c.use_sync_bn c.norm_momentum c.norm_epsilon
            (l2Reg c.l2_weight_decay)
          ++ [.aggClassifier c.params.yt8m_agg_classifier_model c.num_classes
              c.params.agg_model.num_mixtures c.params.agg_model.vocab_as_last_dim
              c.params.agg_model.l2_penalty c.use_sync_bn c.norm_momentum
              c.norm_epsilon]⟩ := by
  unfold DbofModel.construct DbofModel.get_aggregation
  rw [get_dbof_ok _ _ _ _ _ _ _ h]
  simp [hn]

/-- C2: on every configuration whose cluster projection exists,
`get_dbof` branches only on the batch-norm toggle at each normalization
point: with `add_batch_norm` the trace has the `input_bn`, `cluster_bn`
and `hidden1_bn` batch-norm layers (after the input normalization, the
cluster projection and the hidden projection respectively, as the
`dbofLayers` sequence shows) and no learned bias; without it, no
batch-norm layer and instead the learned `cluster_biases` and
`hidden1_biases` variables added after the two projections. -/
theorem claim2_dbof_batch_norm_branching (params : DbofParams)
    (input_specs : InputSpec) (activation : String) (use_sync_bn : Bool)
    (norm_momentum norm_epsilon : ℚ) (l2_weight_decay : Option ℚ)
    (h : 0 < params.cluster_size) :
    (DbofModel.get_dbof params input_specs activation use_sync_bn norm_momentum
        norm_epsilon l2_weight_decay
      = .ok (dbofLayers params input_specs.shape activation use_sync_bn
          norm_momentum norm_epsilon (l2Reg l2_weight_decay)))
    ∧ bnLayers (dbofLayers params input_specs.shape activation use_sync_bn
          norm_momentum norm_epsilon (l2Reg l2_weight_decay))
      = (if params.add_batch_norm then
          [("input_bn", use_sync_bn), ("cluster_bn", use_sync_bn),
            ("hidden1_bn", use_sync_bn)]
        else [])
    ∧ biasVars (dbofLayers params input_specs.shape activation use_sync_bn
          norm_momentum norm_epsilon (l2Reg l2_weight_decay))
      = (if params.add_batch_norm then []
        else [("cluster_biases", params.cluster_size),
          ("hidden1_biases", params.hidden_size)]) := by
  refine ⟨get_dbof_ok _ _ _ _ _ _ _ h, ?_, ?_⟩ <;>
    cases hb : params.add_batch_norm <;>
      cases hcg : params.use_context_gate_cluster_layer <;>
        simp [dbofLayers, bnLayers, biasVars, hb, hcg]

/-- Witness for C2 at a concrete configuration. -/
theorem claim2_witness :
    ((0 : ℤ) < exampleParamsBn.cluster_size)
    ∧ ((DbofModel.get_dbof exampleParamsBn exampleSpec "relu" false 0 0 none
        = .ok (dbofLayers exampleParamsBn exampleSpec.shape "relu" false 0 0
            (l2Reg none)))
      ∧ bnLayers (dbofLayers exampleParamsBn exampleSpec.shape "relu" false 0 0
            (l2Reg none))
        = (if exampleParamsBn.add_batch_norm then
            [("input_bn", false), ("cluster_bn", false), ("hidden1_bn", false)]
          else [])
      ∧ biasVars (dbofLayers exampleParamsBn exampleSpec.shape "relu" false 0 0
            (l2Reg none))
        = (if exampleParamsBn.add_batch_norm then []
          else [("cluster_biases", exampleParamsBn.cluster_size),
            ("hidden1_biases", exampleParamsBn.hidden_size)])) :=
  ⟨by decide,
    claim2_dbof_batch_norm_branching exampleParamsBn exampleSpec "relu" false
      0 0 none (by decide)⟩

/-- C9: `get_dbof` has the precondition `cluster_size > 0`.  When
`cluster_size ≤ 0` the local `activation` still holds the string-valued
activation parameter at its next use as a tensor (batch normalization or
the `cluster_biases` addition), so construction fails there; when
`cluster_size > 0` that path is well-defined and construction of the
layer sequence succeeds. -/
theorem claim9_cluster_size_precondition (params : DbofParams)
    (input_specs : InputSpec) (activation : String) (use_sync_bn : Bool)
    (norm_momentum norm_epsilon : ℚ) (l2_weight_decay : Option ℚ) :
    (params.cluster_size ≤ 0 →
      DbofModel.get_dbof params input_specs activation use_sync_bn
          norm_momentum norm_epsilon l2_weight_decay
        = .error (.framework
            (if params.add_batch_norm then "cluster_bn"
              else "cluster_biases_add")
            (some (.str activation))))
    ∧ (0 < params.cluster_size →
      ∃ t, DbofModel.get_dbof params input_specs activation use_sync_bn
          norm_momentum norm_epsilon l2_weight_decay = .ok t) :=
  ⟨fun h => get_dbof_err params input_specs activation use_sync_bn
      norm_momentum norm_epsilon l2_weight_decay h,
    fun h => ⟨_, get_dbof_ok params input_specs activation use_sync_bn
      norm_momentum norm_epsilon l2_weight_decay h⟩⟩

/-- Witness for C9: with `cluster_size = 0` construction fails at the
cluster batch-norm with the string `"relu"` as operand; with
`cluster_size = 1` it succeeds. -/
theorem claim9_witness :
    (DbofModel.get_dbof exampleParamsBad exampleSpec "relu" false 0 0 none
      = .error (.framework "cluster_bn" (some (.str "relu"))))
    ∧ (∃ t, DbofModel.get_dbof exampleParamsBn exampleSpec "relu" false 0 0 none
        = .ok t) :=
  ⟨(claim9_cluster_size_precondition exampleParamsBad exampleSpec "relu" false
      0 0 none).1 (by decide),
    (claim9_cluster_size_precondition exampleParamsBn exampleSpec "relu" false
      0 0 none).2 (by decide)⟩

/-- C4: for every configuration, construction either succeeds or fails
with an error originating in a call into the external framework; the
fragment raises no error of its own. -/
theorem claim4_no_fragment_errors (c : DbofConfig) :
    errorsAreFramework (DbofModel.construct c) = true := by
  by_cases h : 0 < c.params.cluster_size
  · by_cases hn : (c.params.yt8m_agg_classifier_model = "LogisticModel"
        ∨ c.params.yt8m_agg_classifier_model = "MoeModel")
    · rw [construct_ok c h hn]
      rfl
    · unfold DbofModel.construct DbofModel.get_aggregation
      rw [get_dbof_ok _ _ _ _ _ _ _ h]
      simp [hn, errorsAreFramework, BuildError.isFramework]
  · unfold DbofModel.construct
    rw [get_dbof_err _ _ _ _ _ _ _ (by omega)]
    rfl

/-- Every layer call in a `dbofLayers` sequence that passes a
synchronization flag passes `sync`. -/
theorem dbofLayers_syncOk (params : DbofParams) (shape : List (Option ℤ))
    (act : String) (sync : Bool) (mom eps : ℚ) (reg : Option ℚ) :
    (dbofLayers params shape act sync mom eps reg).all (syncOk sync) = true := by
  cases hb : params.add_batch_norm <;>
    cases hcg : params.use_context_gate_cluster_layer <;>
      simp [dbofLayers, syncOk, LayerCall.syncFlag, hb, hcg]

/-- C6: every layer call of a construction that passes a `synchronized`
argument to batch normalization — the `input_bn` / `cluster_bn` /
`hidden1_bn` layers, the normalizer handed to the context gate, and the
normalizer handed to the aggregation classifier — passes exactly the
constructor's `use_sync_bn`. -/
theorem claim6_sync_batch_norm (c : DbofConfig) (e : LayerCall)
    (he : e ∈ traceList (DbofModel.construct c)) :
    LayerCall.syncFlag e = none
    ∨ LayerCall.syncFlag e = some c.use_sync_bn := by
  have hok : syncOk c.use_sync_bn e = true := by
    by_cases h : 0 < c.params.cluster_size
    · by_cases hn : (c.params.yt8m_agg_classifier_model = "LogisticModel"
          ∨ c.params.yt8m_agg_classifier_model = "MoeModel")
      · rw [construct_ok c h hn] at he
        simp only [traceList] at he
        rcases List.mem_append.mp he with h1 | h2
        · exact List.all_eq_true.mp (dbofLayers_syncOk c.params
            c.input_specs.shape c.activation c.use_sync_bn c.norm_momentum
            c.norm_epsilon (l2Reg c.l2_weight_decay)) e h1
        · rcases List.mem_singleton.mp h2 with rfl
          simp [syncOk, LayerCall.syncFlag]
      · unfold DbofModel.construct DbofModel.get_aggregation at he
        rw [get_dbof_ok _ _ _ _ _ _ _ h, if_neg hn] at he
        simp [traceList] at he
    · unfold DbofModel.construct at he
      rw [get_dbof_err _ _ _ _ _ _ _ (by omega)] at he
      simp [traceList] at he
  unfold syncOk at hok
  cases hsf : e.syncFlag with
  | none => exact Or.inl rfl
  | some s =>
    rw [hsf] at hok
    simp only [beq_iff_eq] at hok
    exact Or.inr (by rw [hok])

/-- Witness for C6: the `input_bn` layer of the concrete configuration
(with `use_sync_bn = false`) carries `synchronized = false`. -/
theorem claim6_witness :
    ((LayerCall.batchNorm "input_bn" false 0 0)
        ∈ traceList (DbofModel.construct exampleConfig))
    ∧ (LayerCall.syncFlag (.batchNorm "input_bn" false 0 0) = none
      ∨ LayerCall.syncFlag (.batchNorm "input_bn" false 0 0)
          = some exampleConfig.use_sync_bn) :=
  ⟨by decide, claim6_sync_batch_norm exampleConfig _ (by decide)⟩

/-- C7: the configured hyperparameters map to the architecture as named:
the two dense projections have widths `cluster_size` and `hidden_size`,
the aggregation classifier is invoked with `vocab_size = num_classes` and
`num_mixtures = params.agg_model.num_mixtures`, and the batch-norm layers
appear per `add_batch_norm` with `synchronized = use_sync_bn`. -/
theorem claim7_hyperparameter_mapping (c : DbofConfig)
    (h : 0 < c.params.cluster_size)
    (hn : c.params.yt8m_agg_classifier_model = "LogisticModel"
      ∨ c.params.yt8m_agg_classifier_model = "MoeModel") :
    denseUnits (traceList (DbofModel.construct c))
      = [c.params.cluster_size, c.params.hidden_size]
    ∧ aggCalls (traceList (DbofModel.construct c))
      = [(c.params.yt8m_agg_classifier_model, c.num_classes,
          c.params.agg_model.num_mixtures)]
    ∧ bnLayers (traceList (DbofModel.construct c))
      = (if c.params.add_batch_norm then
          [("input_bn", c.use_sync_bn), ("cluster_bn", c.use_sync_bn),
            ("hidden1_bn", c.use_sync_bn)]
        else []) := by
  rw [construct_ok c h hn]
  simp only [traceList]
  refine ⟨?_, ?_, ?_⟩ <;>
    cases hb : c.params.add_batch_norm <;>
      cases hcg : c.params.use_context_gate_cluster_layer <;>
        simp [dbofLayers, denseUnits, aggCalls, bnLayers, hb, hcg]

/-- Witness for C7 at the concrete configuration. -/
theorem claim7_witness :
    ((0 : ℤ) < exampleConfig.params.cluster_size)
    ∧ (denseUnits (traceList (DbofModel.construct exampleConfig))
        = [exampleConfig.params.cluster_size, exampleConfig.params.hidden_size]
      ∧ aggCalls (traceList (DbofModel.construct exampleConfig))
        = [(exampleConfig.params.yt8m_agg_classifier_model,
            exampleConfig.num_classes,
            exampleConfig.params.agg_model.num_mixtures)]
      ∧ bnLayers (traceList (DbofModel.construct exampleConfig))
        = (if exampleConfig.params.add_batch_norm then
            [("input_bn", exampleConfig.use_sync_bn),
              ("cluster_bn", exampleConfig.use_sync_bn),
              ("hidden1_bn", exampleConfig.use_sync_bn)]
          else [])) :=
  ⟨by decide,
    claim7_hyperparameter_mapping exampleConfig (by decide) (Or.inr rfl)⟩

/-- The branch shape of any construction is a function of the batch-norm
toggle, the cluster-size sign, the context-gate toggle and the
aggregation classifier name. -/
theorem traceShape_construct (c : DbofConfig) :
    traceShape (DbofModel.construct c)
      = dbofShape c.params.add_batch_norm (decide (0 < c.params.cluster_size))
          c.params.use_context_gate_cluster_layer
          c.params.yt8m_agg_classifier_model := by
  by_cases h : 0 < c.params.cluster_size
  · by_cases hn : (c.params.yt8m_agg_classifier_model = "LogisticModel"
        ∨ c.params.yt8m_agg_classifier_model = "MoeModel")
    · rw [construct_ok c h hn]
      cases hb : c.params.add_batch_norm <;>
        cases hcg : c.params.use_context_gate_cluster_layer <;>
          simp [traceShape, dbofShape, dbofLayers, LayerCall.tag, h, hn, hb, hcg]
    · unfold DbofModel.construct DbofModel.get_aggregation
      rw [get_dbof_ok _ _ _ _ _ _ _ h, if_neg hn]
      simp [traceShape, dbofShape, h, hn]
  · unfold DbofModel.construct
    rw [get_dbof_err _ _ _ _ _ _ _ (by omega)]
    simp [traceShape, dbofShape, h]

/-- C5 counterexample: two configurations that agree on the batch-norm
toggle, the pooling method and the mixture count (differing only in the
context-gate cluster-layer toggle) build different layer sequences, so
branching is not determined by those three values alone. -/
theorem claim5_counterexample :
    exampleConfig.params.add_batch_norm = exampleConfigCg.params.add_batch_norm
    ∧ exampleConfig.params.pooling_method
      = exampleConfigCg.params.pooling_method
    ∧ exampleConfig.params.agg_model.num_mixtures
      = exampleConfigCg.params.agg_model.num_mixtures
    ∧ traceShape (DbofModel.construct exampleConfig)
      ≠ traceShape (DbofModel.construct exampleConfigCg) := by
  refine ⟨rfl, rfl, rfl, ?_⟩
  decide

/-- C5 amended: the layer sequence is a function of the configuration
alone, and the branch shape is determined by the batch-norm toggle, the
pooling method and the mixture count together with the cluster-size sign,
the context-gate toggle and the aggregation classifier name. -/
theorem claim5_layer_sequence_determined (c1 c2 : DbofConfig) :
    (c1 = c2 → DbofModel.construct c1 = DbofModel.construct c2)
    ∧ (c1.params.add_batch_norm = c2.params.add_batch_norm →
      c1.params.pooling_method = c2.params.pooling_method →
      c1.params.agg_model.num_mixtures = c2.params.agg_model.num_mixtures →
      (0 < c1.params.cluster_size ↔ 0 < c2.params.cluster_size) →
      c1.params.use_context_gate_cluster_layer
        = c2.params.use_context_gate_cluster_layer →
      c1.params.yt8m_agg_classifier_model
        = c2.params.yt8m_agg_classifier_model →
      traceShape (DbofModel.construct c1)
        = traceShape (DbofModel.construct c2)) := by
  refine ⟨fun h => by rw [h], ?_⟩
  intro hbn _hpool _hmix hpos hcg hname
  rw [traceShape_construct, traceShape_construct, hbn, hcg, hname,
    decide_eq_decide.mpr hpos]

/-- Witness for the amended C5 at two equal concrete configurations. -/
theorem claim5_witness :
    DbofModel.construct exampleConfig = DbofModel.construct exampleConfig
    ∧ traceShape (DbofModel.construct exampleConfig)
      = traceShape (DbofModel.construct exampleConfig) :=
  ⟨(claim5_layer_sequence_determined exampleConfig exampleConfig).1 rfl,
    (claim5_layer_sequence_determined exampleConfig exampleConfig).2 rfl rfl
      rfl Iff.rfl rfl rfl⟩

/-- A successful construction stores the constructor arguments verbatim
as its `_config_dict`. -/
theorem construct_config_eq (c : DbofConfig) (m : DbofModel)
    (h : DbofModel.construct c = .ok m) : m.config_dict = c := by
  unfold DbofModel.construct at h
  split at h
  · exact absurd h (by simp)
  · split at h
    · exact absurd h (by simp)
    · simp only [Except.ok.injEq] at h
      rw [← h]

/-- C10: for every successfully constructed model, `get_config` returns
exactly the construction parameters, and
`from_config (get_config m)` succeeds and yields a model with the same
configuration (indeed the same model). -/
theorem claim10_config_round_trip (c : DbofConfig) (m : DbofModel)
    (h : DbofModel.construct c = .ok m) :
    DbofModel.get_config m = c
    ∧ DbofModel.from_config (DbofModel.get_config m) = .ok m := by
  have hc : m.config_dict = c := construct_config_eq c m h
  refine ⟨hc, ?_⟩
  unfold DbofModel.from_config DbofModel.get_config
  rw [hc]
  exact h

/-- Witness for C10 at the concrete configuration. -/
theorem claim10_witness :
    DbofModel.get_config exampleModel = exampleConfig
    ∧ DbofModel.from_config (DbofModel.get_config exampleModel)
      = .ok exampleModel :=
  claim10_config_round_trip exampleConfig exampleModel (by rfl)

end Yt8m
